import Mathlib

/-
Verification of the gestia-v2 authentication service against its
natural-language specification.  The Python sources under
src/backend/auth-service (primary draft) and src/auth_service (secondary
draft) are shallowly embedded below: pure functions become Lean functions,
stateful code becomes explicit state passing, and Python exceptions become
an explicit error type.  Field accesses, constructor calls and attribute
lookups are translated against the class definitions actually present in
the repository, so a call that would raise TypeError or AttributeError in
Python is embedded as the corresponding error value.
-/

namespace Gestia

/-- Exc models the Python exceptions that the embedded code can raise.
Domain exceptions (app/dominio/excepciones.py) get one constructor each;
built-in Python errors (TypeError, AttributeError, ValueError) are also
represented because several call sites in the repository invoke methods
or constructors that do not exist with the written signature. -/
inductive Exc where
  | invalidCredentials : Exc
  | accountLocked (unlock_in : Int) : Exc
  | mfaRequired : Exc
  | invalidMFACode (attempts_left : Int) : Exc
  | roleConflict : Exc
  | permissionDenied : Exc
  | invalidToken (reason : String) : Exc
  | tokenRevoked : Exc
  | securityException (code : String) : Exc
  | userNotFound : Exc
  | userInactive : Exc
  | httpUnauthorized : Exc
  | typeError (msg : String) : Exc
  | attributeError (msg : String) : Exc
  | valueError (msg : String) : Exc
  | indexError (msg : String) : Exc
  | invalidSignature : Exc
  | missingRequiredClaim (claim : String) : Exc
  | invalidAudience : Exc
  | invalidIssuer : Exc
  | immatureSignature : Exc
  | nonTermination : Exc
  deriving Repr, DecidableEq

instance {ε α : Type} [DecidableEq ε] [DecidableEq α] : DecidableEq (Except ε α) := fun a b =>
  match a, b with
  | .ok x, .ok y =>
    if h : x = y then .isTrue (by rw [h]) else .isFalse (by intro he; cases he; exact h rfl)
  | .error x, .error y =>
    if h : x = y then .isTrue (by rw [h]) else .isFalse (by intro he; cases he; exact h rfl)
  | .ok _, .error _ => .isFalse (by intro h; cases h)
  | .error _, .ok _ => .isFalse (by intro h; cases h)

/-- WILDCARD_PERMISSION from app/shared/config/constants.py
(RBACConstants.WILDCARD_PERMISSION = "*"). -/
def WILDCARD_PERMISSION : String := "*"

/-- Helper for splitOnce on the underlying character list. -/
def splitOnceChar (c : Char) : List Char → Option (List Char × List Char)
  | [] => none
  | x :: xs =>
    if x = c then some ([], xs)
    else
      match splitOnceChar c xs with
      | none => none
      | some (a, b) => some (x :: a, b)

/-- Python s.split(delim, 1) for a one-character delimiter: split at the
first occurrence only.  Returns none when the delimiter does not occur, in
which case the unpacking `a, b = s.split(d, 1)` in the source raises
ValueError. -/
def splitOnce (c : Char) (s : String) : Option (String × String) :=
  match splitOnceChar c s.toList with
  | none => none
  | some (a, b) => some (String.mk a, String.mk b)

/-
C1: RBAC permission checks.
Source: src/backend/auth-service/app/dominio/modelos.py, Rol.has_permission
(lines 151-172) and src/backend/auth-service/app/dominio/servicios.py,
ServicioRBAC.verificar_permiso (lines 123-136).
A Permiso entity is represented by its name string; `self.permissions`
becomes the list of those names.
-/

/-- Inner loop of Rol.has_permission: for each stored permission name,
split it as perm_scope, perm_action = perm.name.split(":", 1) (ValueError
if no colon), then grant when perm_scope equals the required scope and
perm_action is the wildcard or the exact required action. -/
def has_permission_loop (perms : List String) (required_scope required_action : String) :
    Except Exc Bool :=
  match perms with
  | [] => .ok false
  | p :: rest =>
    match splitOnce ':' p with
    | none => .error (.valueError "not enough values to unpack")
    | some (perm_scope, perm_action) =>
      if perm_scope = required_scope ∧
         (perm_action = WILDCARD_PERMISSION ∨ perm_action = required_action) then
        .ok true
      else
        has_permission_loop rest required_scope required_action

/-- Rol.has_permission (modelos.py 151-172).  The first test in the source
is `if RBACConstants.WILDCARD_PERMISSION in self.permissions`, a membership
test of the string "*" in the permission set; at name level this asks
whether some permission is literally named "*" (in the running program it
compares a str against Permiso objects and is never true; both readings
agree on every permission set whose names contain a colon, which
Permiso.validate_permission_name enforces).  Then the required permission
is split as required_scope, required_action = permission.split(":", 1)
and the loop above runs. -/
def has_permission (perms : List String) (permission : String) : Except Exc Bool :=
  if WILDCARD_PERMISSION ∈ perms then
    .ok true
  else
    match splitOnce ':' permission with
    | none => .error (.valueError "not enough values to unpack")
    | some (required_scope, required_action) =>
      has_permission_loop perms required_scope required_action

/-- ServicioRBAC.verificar_permiso (servicios.py 123-136).  An inactive
principal raises PermissionDeniedError; otherwise the result is the exact
string membership `permiso_requerido in permisos`, where the consulted set
is the cached set on a cache hit and the freshly resolved set on a miss
(both branches are literal membership tests, so the cache is passed in as
an optional override of the resolved set). -/
def verificar_permiso (esta_activo : Bool) (cache : Option (List String))
    (permisos : List String) (permiso_requerido : String) : Except Exc Bool :=
  if ¬ esta_activo then
    .error .permissionDenied
  else
    match cache with
    | some permisos_cache => .ok (permiso_requerido ∈ permisos_cache)
    | none => .ok (permiso_requerido ∈ permisos)

/-- The four shapes that the specification says should grant
`scope:action`: `*:*`, `scope:*`, `*:action`, and the exact name. -/
def grantingShapes (scope action : String) : List String :=
  ["*:*", scope ++ ":*", "*:" ++ action, scope ++ ":" ++ action]

lemma has_permission_loop_ok_true_iff
    (perms : List String) (rs ra : String)
    (hw : ∀ p ∈ perms, (splitOnce ':' p).isSome) :
    has_permission_loop perms rs ra = .ok true ↔
      ∃ p ∈ perms, ∃ ps pa, splitOnce ':' p = some (ps, pa) ∧
        ps = rs ∧ (pa = WILDCARD_PERMISSION ∨ pa = ra) := by
  induction perms with
  | nil => simp [has_permission_loop]
  | cons p rest ih =>
    have hp : (splitOnce ':' p).isSome := hw p (by simp)
    obtain ⟨⟨ps, pa⟩, hps⟩ := Option.isSome_iff_exists.mp hp
    have hrest : ∀ q ∈ rest, (splitOnce ':' q).isSome := by
      intro q hq; exact hw q (by simp [hq])
    by_cases hmatch : ps = rs ∧ (pa = WILDCARD_PERMISSION ∨ pa = ra)
    · simp only [has_permission_loop, hps, hmatch, if_pos]
      constructor
      · intro _
        exact ⟨p, by simp, ps, pa, hps, hmatch⟩
      · intro _; rfl
    · simp only [has_permission_loop, hps, hmatch, if_neg, not_false_iff]
      rw [ih hrest]
      constructor
      · rintro ⟨q, hq, ps2, pa2, hsplit, hcond⟩
        exact ⟨q, by simp [hq], ps2, pa2, hsplit, hcond⟩
      · rintro ⟨q, hq, ps2, pa2, hsplit, hcond⟩
        rcases List.mem_cons.mp hq with hq | hq
        · subst hq
          rw [hps] at hsplit
          injection hsplit with h1
          obtain ⟨h2, h3⟩ := Prod.mk.injEq .. ▸ (by exact h1 : (ps, pa) = (ps2, pa2))
          exact absurd (h2 ▸ h3 ▸ hcond) hmatch
        · exact ⟨q, hq, ps2, pa2, hsplit, hcond⟩

/-- C1 counterexample: with the permission set S = ["*:*"] and the
required permission "users:read", the shape "*:*" is in S, so the claimed
iff demands that both checks return true; the code returns false from
both (Rol.has_permission only matches stored permissions whose scope
equals the required scope literally, and verificar_permiso is an exact
membership test). -/
theorem C1_wildcard_counterexample :
    "*:*" ∈ grantingShapes "users" "read" ∧
    has_permission ["*:*"] "users:read" = .ok false ∧
    verificar_permiso true none ["*:*"] "users:read" = .ok false := by
  refine ⟨by simp [grantingShapes], ?_, ?_⟩ <;> decide

/-- C1 amended: for a required permission of the form scope:action,
Rol.has_permission grants exactly when the set holds a permission
literally named "*", or one whose scope equals the required scope and
whose action is "*" or the required action (so `*:*` and `*:action`
shapes do not grant unless the required scope is itself "*"); and
ServicioRBAC.verificar_permiso grants exactly on literal membership of
the required string (the cache branch behaves identically whenever the
cached set is the resolved set). -/
theorem C1_rbac_checks_characterization
    (perms : List String) (required rs ra : String)
    (hreq : splitOnce ':' required = some (rs, ra))
    (hw : ∀ p ∈ perms, (splitOnce ':' p).isSome)
    (cache : Option (List String)) (hc : cache = none ∨ cache = some perms) :
    (has_permission perms required = .ok true ↔
      WILDCARD_PERMISSION ∈ perms ∨
        ∃ p ∈ perms, ∃ ps pa, splitOnce ':' p = some (ps, pa) ∧
          ps = rs ∧ (pa = WILDCARD_PERMISSION ∨ pa = ra)) ∧
    (verificar_permiso true cache perms required = .ok (decide (required ∈ perms))) := by
  constructor
  · unfold has_permission
    by_cases hstar : WILDCARD_PERMISSION ∈ perms
    · simp [hstar]
    · simp only [hstar, if_neg, not_false_iff, hreq]
      rw [has_permission_loop_ok_true_iff perms rs ra hw]
      simp [hstar]
  · rcases hc with hc | hc <;> simp [verificar_permiso, hc]

/-- C1 witness: instantiates the characterization at a concrete
permission set ["users:*", "auth:read"], a concrete required permission
"users:write", and an empty cache, discharging each hypothesis by
computation. -/
theorem C1_rbac_checks_characterization_witness :
    (has_permission ["users:*", "auth:read"] "users:write" = .ok true ↔
      WILDCARD_PERMISSION ∈ ["users:*", "auth:read"] ∨
        ∃ p ∈ ["users:*", "auth:read"], ∃ ps pa, splitOnce ':' p = some (ps, pa) ∧
          ps = "users" ∧ (pa = WILDCARD_PERMISSION ∨ pa = "write")) ∧
    (verificar_permiso true none ["users:*", "auth:read"] "users:write" =
      .ok (decide ("users:write" ∈ ["users:*", "auth:read"]))) :=
  C1_rbac_checks_characterization ["users:*", "auth:read"] "users:write" "users" "write"
    (by decide) (by decide) none (Or.inl rfl)

/-
C4: Unit of Work.
Source: src/backend/auth-service/app/infraestructura/persistencia/unit_of_work.py,
UnitOfWork.__aenter__ (lines 28-34) and UnitOfWork.__aexit__ (lines 36-54),
overriding the base class in orm.py.  The database is an association list;
a repository mutation is a put or a delete applied to the open session's
working copy; commit publishes the working copy into the persistent state
and rollback discards it.  Nested `async with` entries are reference
counted through _transaction_depth exactly as in the source.
-/

/-- Persistent store contents: an association list from keys to values. -/
abbrev DB : Type := List (String × Int)

/-- One repository mutation issued through the UoW session. -/
inductive Mut where
  | put (k : String) (v : Int) : Mut
  | del (k : String) : Mut
  deriving Repr, DecidableEq

/-- Effect of a single mutation on a database snapshot. -/
def applyMut (db : DB) (m : Mut) : DB :=
  match m with
  | .put k v => (k, v) :: db
  | .del k => db.filter (fun kv => kv.1 ≠ k)

/-- Effect of a sequence of mutations. -/
def applyMuts (db : DB) (ms : List Mut) : DB :=
  ms.foldl applyMut db

/-- Code running inside a UoW scope: repository mutations, a raised
exception, sequencing, and a nested `async with uow` block. -/
inductive Act where
  | skip : Act
  | mutate (m : Mut) : Act
  | fail : Act
  | seq (a b : Act) : Act
  | scope (a : Act) : Act
  deriving Repr, DecidableEq

/-- All mutations an action would issue when nothing raises, in order. -/
def muts : Act → List Mut
  | .skip => []
  | .mutate m => [m]
  | .fail => []
  | .seq a b => muts a ++ muts b
  | .scope a => muts a

/-- UoW runtime state: the committed persistent database, the open
session's uncommitted working copy (none when no session is open), and
the reference-counted transaction depth. -/
structure UoWState where
  persistent : DB
  session : Option DB
  depth : Nat
  deriving Repr, DecidableEq

/-- UnitOfWork.__aenter__: at depth 0 a session is created and a
transaction begun (the working copy starts as the persistent snapshot);
the depth is always incremented. -/
def aenterUoW (st : UoWState) : UoWState :=
  if st.depth = 0 then
    { persistent := st.persistent, session := some st.persistent, depth := 1 }
  else
    { st with depth := st.depth + 1 }

/-- UnitOfWork.__aexit__: the depth is decremented; a nested exit returns
at once (any exception keeps propagating).  At the outermost exit, an
exceptional exit rolls back (the working copy is discarded) and a normal
exit commits (the working copy becomes persistent); the session is then
closed. -/
def aexitUoW (raised : Bool) (st : UoWState) : UoWState :=
  if st.depth - 1 > 0 then
    { st with depth := st.depth - 1 }
  else if raised then
    { st with depth := st.depth - 1, session := none }
  else
    { persistent := st.session.getD st.persistent, session := none, depth := st.depth - 1 }

/-- Execution of an action against the UoW state.  The Bool records
whether an exception is propagating (Python re-raises through __aexit__
because it never returns a truthy value). -/
def runAct : Act → UoWState → Bool × UoWState
  | .skip, st => (false, st)
  | .mutate m, st => (false, { st with session := st.session.map (fun w => applyMut w m) })
  | .fail, st => (true, st)
  | .seq a b, st =>
    match runAct a st with
    | (true, st1) => (true, st1)
    | (false, st1) => runAct b st1
  | .scope a, st =>
    match runAct a (aenterUoW st) with
    | (r, st2) => (r, aexitUoW r st2)

/-- Whole use case: enter the outermost UoW scope around the body,
starting from a closed state over the given database. -/
def runUoW (db : DB) (body : Act) : Bool × UoWState :=
  runAct (.scope body) { persistent := db, session := none, depth := 0 }

lemma runAct_open_session (a : Act) :
    ∀ (st : UoWState) (w : DB), 1 ≤ st.depth → st.session = some w →
      (runAct a st).2.persistent = st.persistent ∧
      (runAct a st).2.depth = st.depth ∧
      ∃ w2, (runAct a st).2.session = some w2 ∧
        ((runAct a st).1 = false → w2 = applyMuts w (muts a)) := by
  induction a with
  | skip =>
    intro st w _ hs
    exact ⟨rfl, rfl, w, hs, fun _ => rfl⟩
  | mutate m =>
    intro st w _ hs
    refine ⟨rfl, rfl, applyMut w m, ?_, fun _ => rfl⟩
    simp [runAct, hs]
  | fail =>
    intro st w _ hs
    exact ⟨rfl, rfl, w, hs, fun h => by cases h⟩
  | seq a b iha ihb =>
    intro st w hd hs
    obtain ⟨hp1, hd1, w1, hs1, hm1⟩ := iha st w hd hs
    rcases hr : runAct a st with ⟨r1, st1⟩
    rw [hr] at hp1 hd1 hs1 hm1
    simp only at hp1 hd1 hs1 hm1
    cases r1 with
    | true =>
      simp only [runAct, hr]
      exact ⟨hp1, hd1, w1, hs1, fun h => by cases h⟩
    | false =>
      obtain ⟨hp2, hd2, w2, hs2, hm2⟩ := ihb st1 w1 (hd1 ▸ hd) hs1
      simp only [runAct, hr]
      refine ⟨hp2.trans hp1, hd2.trans hd1, w2, hs2, fun h => ?_⟩
      rw [hm2 h, hm1 rfl, muts, applyMuts, applyMuts, applyMuts, List.foldl_append]
  | scope a ih =>
    intro st w hd hs
    have hen : aenterUoW st = { st with depth := st.depth + 1 } := by
      unfold aenterUoW
      rw [if_neg (by omega)]
    obtain ⟨hp1, hd1, w1, hs1, hm1⟩ :=
      ih (aenterUoW st) w (by rw [hen]; exact Nat.le_succ_of_le hd) (by rw [hen]; exact hs)
    rcases hr : runAct a (aenterUoW st) with ⟨r, st2⟩
    rw [hr] at hp1 hd1 hs1 hm1
    simp only at hp1 hd1 hs1 hm1
    rw [hen] at hp1 hd1
    have hex : aexitUoW r st2 = { st2 with depth := st.depth } := by
      unfold aexitUoW
      rw [hd1]
      simp only [Nat.add_sub_cancel]
      rw [if_pos (by omega)]
    have hrun : runAct (Act.scope a) st = (r, aexitUoW r st2) := by
      simp only [runAct, hr]
    rw [hrun, hex]
    exact ⟨hp1, rfl, w1, hs1, fun h => by rw [hm1 h]; rfl⟩

/-- C4 confirmed: running any body inside the outermost UoW scope is
atomic.  If an exception propagates out of the scope (after any number of
repository mutations, including mutations inside nested scopes that
exited normally), the persistent database is exactly the initial one: the
exceptional exit rolled the transaction back and no nested exit committed
anything.  Only on normal exit of the outermost scope is the transaction
committed, at which point all mutations of the scope are applied. -/
theorem C4_uow_atomicity (db : DB) (body : Act) :
    ((runUoW db body).1 = true → (runUoW db body).2.persistent = db) ∧
    ((runUoW db body).1 = false →
      (runUoW db body).2.persistent = applyMuts db (muts body)) ∧
    (runUoW db body).2.session = none ∧
    (runUoW db body).2.depth = 0 := by
  have hen : aenterUoW { persistent := db, session := none, depth := 0 } =
      { persistent := db, session := some db, depth := 1 } := by
    unfold aenterUoW
    rw [if_pos rfl]
  obtain ⟨hp, hd, w2, hs, hm⟩ :=
    runAct_open_session body { persistent := db, session := some db, depth := 1 } db
      (le_refl 1) rfl
  rcases hr : runAct body { persistent := db, session := some db, depth := 1 } with ⟨r, st2⟩
  rw [hr] at hp hd hs hm
  simp only at hp hd hs hm
  have hrun : runUoW db body = (r, aexitUoW r st2) := by
    unfold runUoW
    simp only [runAct, hen, hr]
  rw [hrun]
  cases r with
  | true =>
    have hex : aexitUoW true st2 = { st2 with depth := 0, session := none } := by
      unfold aexitUoW
      rw [hd]
      rfl
    rw [hex]
    exact ⟨fun _ => hp, fun h => Bool.noConfusion h, rfl, rfl⟩
  | false =>
    have hex : aexitUoW false st2 =
        { persistent := st2.session.getD st2.persistent, session := none, depth := 0 } := by
      unfold aexitUoW
      rw [hd]
      rfl
    rw [hex]
    refine ⟨fun h => Bool.noConfusion h, fun _ => ?_, rfl, rfl⟩
    show st2.session.getD st2.persistent = applyMuts db (muts body)
    rw [hs]
    simp only [Option.getD_some]
    exact hm rfl

/-- C4 witness: a concrete scope that performs two mutations and then
raises leaves the store unchanged, while the same mutations without the
failure are committed on normal exit; both facts are obtained by applying
the atomicity theorem at those bodies. -/
theorem C4_uow_atomicity_witness :
    (runUoW [("a", 0)] (.seq (.mutate (.put "x" 1)) (.seq (.mutate (.del "a")) .fail))).2.persistent
        = [("a", 0)] ∧
    (runUoW [("a", 0)] (.seq (.mutate (.put "x" 1)) (.mutate (.del "a")))).2.persistent
        = applyMuts [("a", 0)] (muts (.seq (.mutate (.put "x" 1)) (.mutate (.del "a")))) :=
  ⟨(C4_uow_atomicity [("a", 0)] (.seq (.mutate (.put "x" 1)) (.seq (.mutate (.del "a")) .fail))).1
      (by decide),
   (C4_uow_atomicity [("a", 0)] (.seq (.mutate (.put "x" 1)) (.mutate (.del "a")))).2.1
      (by decide)⟩

/-
C5: login lockout.
Source: src/backend/auth-service/app/dominio/servicios.py,
ServicioAutenticacion (lines 65-93), with the limits from
src/backend/auth-service/app/shared/config/constants.py (lines 32-34).
The class hardcodes max_intentos = 5 and tiempo_bloqueo = 300 seconds.
Two methods it calls, _validar_credenciales and _reiniciar_intentos, are
not defined anywhere in the class; they are modelled from the spec below
(their behavior also matches the sibling class AuthService in
app/aplicacion/servicios.py, lines 124-131, which implements the same
flow with _registrar_intento_fallido and _reiniciar_intentos).
-/

/-- SecurityConstants.LOGIN_ATTEMPTS_LIMIT (constants.py line 33). -/
def LOGIN_ATTEMPTS_LIMIT : Nat := 5

/-- SecurityConstants.LOGIN_LOCKOUT_MINUTES (constants.py line 34). -/
def LOGIN_LOCKOUT_MINUTES : Int := 15

/-- LOGIN_LOCKOUT_SECONDS as the spec names it: the lockout constant in
seconds (15 minutes = 900 seconds). -/
def LOGIN_LOCKOUT_SECONDS : Int := LOGIN_LOCKOUT_MINUTES * 60

/-- ServicioAutenticacion.max_intentos (servicios.py line 69). -/
def max_intentos : Nat := 5

/-- ServicioAutenticacion.tiempo_bloqueo, hardcoded to 300 seconds
(servicios.py line 70). -/
def tiempo_bloqueo : Int := 300

/-- Python datetime.min as a Unix timestamp (year 1), the fallback used
when a user has no recorded failure time. -/
def datetimeMin : Int := -62135596800

/-- The user fields ServicioAutenticacion reads and writes: the failure
counter, the last failure timestamp, and the MFA flag. -/
structure Usuario where
  intentos_fallidos : Nat
  ultimo_intento_fallido : Option Int
  mfa_habilitado : Bool
  deriving Repr, DecidableEq

/-- ServicioAutenticacion._calcular_tiempo_desbloqueo: remaining lockout
seconds, max(0, tiempo_bloqueo - elapsed since the last failed attempt),
with datetime.min as fallback when no failure was recorded. -/
def calcular_tiempo_desbloqueo (u : Usuario) (now : Int) : Int :=
  max 0 (tiempo_bloqueo - (now - u.ultimo_intento_fallido.getD datetimeMin))

/-- ServicioAutenticacion._validar_bloqueo: when the counter has reached
max_intentos and time remains on the lockout, raise AccountLockedError
carrying the remaining seconds. -/
def validar_bloqueo (u : Usuario) (now : Int) : Except Exc Unit :=
  if u.intentos_fallidos ≥ max_intentos then
    let tiempo_restante := calcular_tiempo_desbloqueo u now
    if tiempo_restante > 0 then .error (.accountLocked tiempo_restante) else .ok ()
  else .ok ()

/-- Modelled from the spec: ServicioAutenticacion calls
self._validar_credenciales(usuario, password) but the method is defined
nowhere in the class.  Per the spec state machine, CHECK_CREDS on a
missing user or hash mismatch goes to RECORD_FAIL, which increments the
counter and records the failure time, then fails with InvalidCredentials;
this matches AuthService._registrar_intento_fallido in
app/aplicacion/servicios.py.  The password comparison itself is the
injected hasher verdict verify_ok. -/
def validar_credenciales (verify_ok : Bool) (u : Usuario) (now : Int) :
    Except Exc Unit × Usuario :=
  if verify_ok then (.ok (), u)
  else
    (.error .invalidCredentials,
     { u with intentos_fallidos := u.intentos_fallidos + 1,
              ultimo_intento_fallido := some now })

/-- Modelled from the spec: ServicioAutenticacion calls
self._reiniciar_intentos(usuario) after a successful authentication but
the method is defined nowhere in the class.  Per the spec, successful
authentication resets the counter; this matches
AuthService._reiniciar_intentos in app/aplicacion/servicios.py, which
sets intentos_fallidos = 0. -/
def reiniciar_intentos (u : Usuario) : Usuario :=
  { u with intentos_fallidos := 0 }

/-- ServicioAutenticacion.autenticar: check the lockout, check the
credentials (recording failures), demand MFA when enabled, and on success
reset the failure counter.  State passing returns the updated user record
alongside the outcome. -/
def autenticar (verify_ok : Bool) (u : Usuario) (now : Int) :
    Except Exc Usuario × Usuario :=
  match validar_bloqueo u now with
  | .error e => (.error e, u)
  | .ok () =>
    match validar_credenciales verify_ok u now with
    | (.error e, u2) => (.error e, u2)
    | (.ok (), u2) =>
      if u2.mfa_habilitado then (.error .mfaRequired, u2)
      else
        let u3 := reiniciar_intentos u2
        (.ok u3, u3)

/-- C5 confirmed: (1) a successful login of an unlocked user resets the
failure counter to zero; (2) a failed login of an unlocked user emits
InvalidCredentials and increments the counter, recording the failure
time, so LOGIN_ATTEMPT_LIMIT = max_intentos = 5 consecutive failures
drive the counter to the limit; (3) once the counter has reached the
limit and the lockout window is still open, any further attempt (even
with the correct password, any verify_ok) fails with AccountLocked
carrying retryAfter = deadline - now for the deadline lastFailure +
tiempo_bloqueo, and that retryAfter is positive and at most
LOGIN_LOCKOUT_SECONDS = 900 (the service uses a 300-second window, which
satisfies the bound). -/
theorem C5_login_lockout (u : Usuario) (now t : Int) (v : Bool) :
    (u.intentos_fallidos < max_intentos → u.mfa_habilitado = false →
      autenticar true u now = (.ok (reiniciar_intentos u), reiniciar_intentos u) ∧
      (reiniciar_intentos u).intentos_fallidos = 0) ∧
    (u.intentos_fallidos < max_intentos →
      autenticar false u now =
        (.error .invalidCredentials,
         { u with intentos_fallidos := u.intentos_fallidos + 1,
                  ultimo_intento_fallido := some now })) ∧
    (u.intentos_fallidos ≥ max_intentos → u.ultimo_intento_fallido = some t →
      0 ≤ now - t → now - t < tiempo_bloqueo →
      autenticar v u now = (.error (.accountLocked (t + tiempo_bloqueo - now)), u) ∧
      0 < t + tiempo_bloqueo - now ∧ t + tiempo_bloqueo - now ≤ LOGIN_LOCKOUT_SECONDS) := by
  refine ⟨fun hlt hmfa => ?_, fun hlt => ?_, fun hge hlast h0 hwin => ?_⟩
  · have hb : validar_bloqueo u now = .ok () := by
      unfold validar_bloqueo
      rw [if_neg (by omega)]
    unfold autenticar
    rw [hb]
    simp [validar_credenciales, hmfa, reiniciar_intentos]
  · have hb : validar_bloqueo u now = .ok () := by
      unfold validar_bloqueo
      rw [if_neg (by omega)]
    unfold autenticar
    rw [hb]
    simp [validar_credenciales]
  · have hr : calcular_tiempo_desbloqueo u now = t + tiempo_bloqueo - now := by
      unfold calcular_tiempo_desbloqueo
      rw [hlast]
      simp only [Option.getD_some]
      rw [max_eq_right (by omega)]
      ring
    have hb : validar_bloqueo u now = .error (.accountLocked (t + tiempo_bloqueo - now)) := by
      unfold validar_bloqueo
      rw [if_pos hge, hr, if_pos (by unfold tiempo_bloqueo at hwin ⊢; omega)]
    have htb : tiempo_bloqueo = 300 := rfl
    have hls : LOGIN_LOCKOUT_SECONDS = 900 := rfl
    refine ⟨?_, by rw [htb] at hwin ⊢; omega, by rw [htb] at hwin ⊢; rw [hls]; omega⟩
    unfold autenticar
    rw [hb]

/-- C5 witness: a user with two prior failures logs in successfully and
the counter is reset to zero; a user with four failures fails once more
(fifth consecutive failure, counter reaches the limit of 5); that locked
user then attempts with the correct password 10 seconds after the fifth
failure and receives AccountLocked with retryAfter = 294 seconds, within
the 900-second bound.  Each part applies the lockout theorem at the
concrete inputs. -/
theorem C5_login_lockout_witness :
    (autenticar true (Usuario.mk 2 (some 0) false) 100 =
      (.ok (reiniciar_intentos (Usuario.mk 2 (some 0) false)),
       reiniciar_intentos (Usuario.mk 2 (some 0) false)) ∧
     (reiniciar_intentos (Usuario.mk 2 (some 0) false)).intentos_fallidos = 0) ∧
    (autenticar false (Usuario.mk 4 (some 3) false) 4 =
      (.error .invalidCredentials, Usuario.mk 5 (some 4) false)) ∧
    (autenticar true (Usuario.mk 5 (some 4) false) 10 =
      (.error (.accountLocked 294), Usuario.mk 5 (some 4) false) ∧
     (294 : Int) ≤ LOGIN_LOCKOUT_SECONDS) := by
  refine ⟨(C5_login_lockout (Usuario.mk 2 (some 0) false) 100 0 true).1 (by decide) rfl,
          ?_, ?_⟩
  · have h := (C5_login_lockout (Usuario.mk 4 (some 3) false) 4 0 true).2.1 (by decide)
    exact h
  · have h := (C5_login_lockout (Usuario.mk 5 (some 4) false) 10 4 true).2.2
      (by decide) rfl (by decide) (by decide)
    exact ⟨h.1, h.2.2⟩

/-
C10: MFA attempt counter.
Source: src/backend/auth-service/app/infraestructura/seguridad/mfa_handler.py,
MFAHandler.verify_totp (lines 60-70) and the attempt-counter helpers
(lines 190-209).  The Redis counter mfa:attempts:<user> is an Option Nat
(none when absent or deleted); INCR creates it at 1 or adds 1; DELETE
removes it.  The pyotp TOTP window check is the injected verdict totp_ok.
-/

/-- The MFA attempt limit.  Modelled from the spec: the handler reads
MFAConstants.LOGIN_ATTEMPTS_LIMIT, which does not exist in constants.py;
the spec sets MFA_ATTEMPT_LIMIT (default 5), matching
SecurityConstants.LOGIN_ATTEMPTS_LIMIT = 5. -/
def MFA_ATTEMPT_LIMIT : Nat := 5

/-- MFAHandler._get_mfa_attempts: int(redis.get(key) or 0). -/
def get_mfa_attempts (st : Option Nat) : Nat := st.getD 0

/-- MFAHandler._check_mfa_attempts: at or beyond the limit raise
InvalidMFACodeError with zero attempts left. -/
def check_mfa_attempts (st : Option Nat) : Except Exc Unit :=
  if get_mfa_attempts st ≥ MFA_ATTEMPT_LIMIT then .error (.invalidMFACode 0) else .ok ()

/-- MFAHandler._increment_mfa_attempts: redis INCR (a missing key starts
at 0) followed by EXPIRE. -/
def increment_mfa_attempts (st : Option Nat) : Option Nat :=
  some (get_mfa_attempts st + 1)

/-- MFAHandler._reset_mfa_attempts: redis DELETE of the counter key. -/
def reset_mfa_attempts (_ : Option Nat) : Option Nat := none

/-- MFAHandler._remaining_attempts: limit minus the current counter. -/
def remaining_attempts (st : Option Nat) : Int :=
  (MFA_ATTEMPT_LIMIT : Int) - (get_mfa_attempts st : Int)

/-- MFAHandler.verify_totp: refuse when the counter is at the limit;
on a matching code delete the counter and return true; otherwise
increment the counter and raise InvalidMFACodeError with the remaining
budget. -/
def verify_totp (totp_ok : Bool) (st : Option Nat) : Except Exc Bool × Option Nat :=
  match check_mfa_attempts st with
  | .error e => (.error e, st)
  | .ok () =>
    if totp_ok then (.ok true, reset_mfa_attempts st)
    else
      let st2 := increment_mfa_attempts st
      (.error (.invalidMFACode (remaining_attempts st2)), st2)

/-- C10 confirmed: a successful TOTP verification (code matching the
window, counter below the limit) deletes the principal's attempt counter,
leaving the absent-key state whose reading is 0, i.e. the full budget is
restored; and the counter can only grow at a failed verification, by
exactly one. -/
theorem C10_mfa_attempts_reset (st st2 : Option Nat) (ok : Bool) :
    (get_mfa_attempts st < MFA_ATTEMPT_LIMIT →
      verify_totp true st = (.ok true, none) ∧ get_mfa_attempts none = 0) ∧
    (get_mfa_attempts (verify_totp ok st2).2 > get_mfa_attempts st2 →
      ok = false ∧ get_mfa_attempts (verify_totp ok st2).2 = get_mfa_attempts st2 + 1) := by
  constructor
  · intro hlt
    have hc : check_mfa_attempts st = .ok () := by
      unfold check_mfa_attempts
      rw [if_neg (by omega)]
    unfold verify_totp
    rw [hc]
    exact ⟨rfl, rfl⟩
  · intro hgrow
    rcases hc : check_mfa_attempts st2 with e | u
    · simp only [verify_totp, hc] at hgrow
      exact absurd hgrow (lt_irrefl _)
    · cases ok with
      | true =>
        simp [verify_totp, hc, reset_mfa_attempts, get_mfa_attempts] at hgrow
      | false =>
        refine ⟨rfl, ?_⟩
        simp [verify_totp, hc, increment_mfa_attempts, get_mfa_attempts]

/-- C10 witness: with three failed attempts on record, a correct code
resets the counter to the deleted state (reading 0); and a state whose
counter grew after a verification call shows that call failed, adding
exactly one.  Both parts apply the reset theorem at concrete counters. -/
theorem C10_mfa_attempts_reset_witness :
    (verify_totp true (some 3) = (.ok true, none) ∧ get_mfa_attempts none = 0) ∧
    (false = false ∧
      get_mfa_attempts (verify_totp false (some 1)).2 = get_mfa_attempts (some 1) + 1) :=
  ⟨(C10_mfa_attempts_reset (some 3) none true).1 (by decide),
   (C10_mfa_attempts_reset none (some 1) false).2 (by decide)⟩

/-
C8: indistinguishability of missing user and wrong password.
Sources: src/backend/auth-service/app/aplicacion/casos_uso/autenticacion.py,
LoginUseCase._validate_credentials (lines 42-47), and
src/auth_service/app/aplicacion/servicios.py, AuthService.login (lines
17-45).  The user repository is an association list from email to record;
the password hasher verdict is the injected function verify.
-/

/-- The user fields AuthService.login reads: active flag and stored
password hash. -/
structure UserRecord where
  is_active : Bool
  hashed_password : String
  deriving Repr, DecidableEq

/-- Repository lookup by email (get_by_email). -/
def lookupUser (users : List (String × UserRecord)) (email : String) : Option UserRecord :=
  (users.find? (fun kv => kv.1 == email)).map Prod.snd

/-- AuthService.login (src/auth_service draft): a missing user raises
UserNotFoundError, an inactive user UserInactiveError, a failed password
verification InvalidCredentialsError; otherwise a token pair is minted
(opaque here). -/
def login (verify : String → String → Bool) (users : List (String × UserRecord))
    (email password : String) : Except Exc Unit :=
  match lookupUser users email with
  | none => .error .userNotFound
  | some u =>
    if ¬ u.is_active then .error .userInactive
    else if ¬ verify password u.hashed_password then .error .invalidCredentials
    else .ok ()

/-- LoginUseCase._validate_credentials (backend draft): the test is
`if not user or not self.hasher.verify(password, user.hashed_password)`.
When no user is found the first disjunct short-circuits and
InvalidCredentials is raised.  When a user exists, Python evaluates
self.hasher.verify: PasswordHasher (infraestructura/seguridad/hasher.py)
defines verify_password but no verify, and the Usuario model
(dominio/modelos.py) stores password_hash, not hashed_password, so the
attribute lookup raises AttributeError before any comparison. -/
def validate_credentials_uc (users : List (String × UserRecord)) (email : String) :
    Except Exc UserRecord :=
  match lookupUser users email with
  | none => .error .invalidCredentials
  | some _ => .error (.attributeError "PasswordHasher object has no attribute verify")

/-- C8 counterexample: with one registered active user, a login for an
unknown email yields UserNotFoundError while a login for the registered
email with a non-matching password yields InvalidCredentialsError, and
the two outcomes are different values, contradicting the claim that both
cases produce the same InvalidCredentials error. -/
theorem C8_error_distinguishability_counterexample :
    login (fun _ _ => false) [("alice@example.org", UserRecord.mk true "h1")]
        "bob@example.org" "pw" = .error .userNotFound ∧
    login (fun _ _ => false) [("alice@example.org", UserRecord.mk true "h1")]
        "alice@example.org" "pw" = .error .invalidCredentials ∧
    (Exc.userNotFound ≠ Exc.invalidCredentials) := by
  refine ⟨by decide, by decide, by decide⟩

/-- C8 amended: the observable outcomes of the two cases differ in both
drafts.  AuthService.login answers a missing user with UserNotFoundError
and a wrong password on an active account with InvalidCredentialsError;
LoginUseCase._validate_credentials answers a missing user with
InvalidCredentials but aborts with AttributeError whenever the user
exists, so no execution collapses the two cases into the same
InvalidCredentials error. -/
theorem C8_login_error_outcomes (verify : String → String → Bool)
    (users : List (String × UserRecord)) (email password : String) (u : UserRecord) :
    (lookupUser users email = none →
      login verify users email password = .error .userNotFound ∧
      validate_credentials_uc users email = .error .invalidCredentials) ∧
    (lookupUser users email = some u → u.is_active = true →
      verify password u.hashed_password = false →
      login verify users email password = .error .invalidCredentials ∧
      validate_credentials_uc users email =
        .error (.attributeError "PasswordHasher object has no attribute verify")) := by
  constructor
  · intro hnone
    unfold login validate_credentials_uc
    rw [hnone]
    exact ⟨rfl, rfl⟩
  · intro hsome hact hver
    unfold login validate_credentials_uc
    rw [hsome]
    simp [hact, hver]

/-- C8 witness: instantiates the outcome characterization at a concrete
single-user repository, once for an unknown email and once for the
registered email with a rejected password. -/
theorem C8_login_error_outcomes_witness :
    (login (fun _ _ => false) [("alice@example.org", UserRecord.mk true "h1")]
        "carol@example.org" "pw" = .error .userNotFound ∧
     validate_credentials_uc [("alice@example.org", UserRecord.mk true "h1")]
        "carol@example.org" = .error .invalidCredentials) ∧
    (login (fun _ _ => false) [("alice@example.org", UserRecord.mk true "h1")]
        "alice@example.org" "pw" = .error .invalidCredentials ∧
     validate_credentials_uc [("alice@example.org", UserRecord.mk true "h1")]
        "alice@example.org" =
       .error (.attributeError "PasswordHasher object has no attribute verify")) :=
  ⟨(C8_login_error_outcomes (fun _ _ => false)
      [("alice@example.org", UserRecord.mk true "h1")] "carol@example.org" "pw"
      (UserRecord.mk true "h1")).1 (by decide),
   (C8_login_error_outcomes (fun _ _ => false)
      [("alice@example.org", UserRecord.mk true "h1")] "alice@example.org" "pw"
      (UserRecord.mk true "h1")).2 (by decide) rfl rfl⟩

/-
C9: password hash verification and cost upgrade.
Source: src/backend/auth-service/app/infraestructura/seguridad/hasher.py,
PasswordHasher.verify_password (lines 58-79) and
PasswordHasher._validate_hash_security (lines 88-102).  The bcrypt
backend comparison is the injected verdict crypt_verify; the split and
int parse are embedded exactly.  A bcrypt hash has the shape
$2b$rounds$saltchecksum, so splitting on the dollar sign yields the empty
string, then the algorithm tag 2b, then the cost, then the rest.
-/

/-- Split a character list at every occurrence of the separator,
mirroring Python str.split with no count limit. -/
def splitAllChar (c : Char) : List Char → List (List Char)
  | [] => [[]]
  | x :: xs =>
    match splitAllChar c xs with
    | [] => [[]]
    | g :: gs => if x = c then [] :: g :: gs else (x :: g) :: gs

/-- Python s.split(d) for a one-character separator. -/
def pySplit (c : Char) (s : String) : List String :=
  (splitAllChar c s.toList).map String.mk

/-- Python int(s) on a string: only (nonempty, all-digit) decimal strings
parse; anything else raises ValueError, modelled as none. -/
def pyInt (s : String) : Option Int :=
  let cs := s.toList
  if cs ≠ [] ∧ cs.all (fun c => c.isDigit) then
    some (cs.foldl (fun acc c => acc * 10 + ((c.toNat : Int) - 48)) 0)
  else none

/-- The configured bcrypt cost.  Modelled from the spec: hasher.py reads
SecurityConstants.BCRYPT_COST, which does not exist in constants.py; the
spec configures PASSWORD_HASH_COST, and the secondary draft pins
bcrypt__rounds=12, so 12 is used. -/
def BCRYPT_COST : Nat := 12

/-- passlib CryptContext(schemes=["bcrypt"]).identify: recognizes the
bcrypt format prefixes. -/
def bcryptIdentify (s : String) : Bool :=
  "$2b$".toList.isPrefixOf s.toList || "$2a$".toList.isPrefixOf s.toList ||
    "$2y$".toList.isPrefixOf s.toList

/-- PasswordHasher._validate_hash_security: reject unidentified formats;
then `_, cost, *_ = hashed_password.split("$")` binds cost to the SECOND
element of the split, which for a bcrypt hash is the algorithm tag (for
example 2b), not the cost field; int(cost) is then compared with the
configured minimum. -/
def validate_hash_security (hashed_password : String) : Except Exc Unit :=
  if ¬ bcryptIdentify hashed_password then
    .error (.securityException "INSECURE_HASH")
  else
    match pySplit '$' hashed_password with
    | _ :: cost :: _ =>
      match pyInt cost with
      | none => .error (.valueError "invalid literal for int")
      | some c =>
        if c < (BCRYPT_COST : Int) then .error (.securityException "WEAK_HASH")
        else .ok ()
    | _ => .error (.valueError "not enough values to unpack")

/-- PasswordHasher.verify_password: _validate_hash_security runs first
inside the try block; any exception it raises (SecurityException as well
as the ValueError from the int parse) is caught by the final
`except Exception` clause and re-raised as SecurityException with code
VERIFY_ERROR.  Only when validation passes does the peppered bcrypt
comparison run. -/
def verify_password (crypt_verify : String → String → Bool)
    (password hashed_password : String) : Except Exc Bool :=
  match validate_hash_security hashed_password with
  | .error _ => .error (.securityException "VERIFY_ERROR")
  | .ok () => .ok (crypt_verify password hashed_password)

lemma splitAllChar_ne_nil (c : Char) (l : List Char) : splitAllChar c l ≠ [] := by
  cases l with
  | nil => simp [splitAllChar]
  | cons x xs =>
    unfold splitAllChar
    rcases h : splitAllChar c xs with _ | ⟨g, gs⟩
    · simp
    · by_cases hx : x = c <;> simp [hx]

lemma pySplit_bcrypt_shape (tail : List Char) :
    ∃ rest, pySplit '$' (String.mk ('$' :: '2' :: 'b' :: '$' :: tail)) =
      "" :: "2b" :: rest := by
  have h1 : splitAllChar '$' ('$' :: '2' :: 'b' :: '$' :: tail) =
      [] :: ['2', 'b'] :: splitAllChar '$' tail := by
    rcases h : splitAllChar '$' tail with _ | ⟨g, gs⟩
    · exact absurd h (splitAllChar_ne_nil '$' tail)
    · simp [splitAllChar, h]
  refine ⟨(splitAllChar '$' tail).map String.mk, ?_⟩
  unfold pySplit
  have : (String.mk ('$' :: '2' :: 'b' :: '$' :: tail)).toList =
      '$' :: '2' :: 'b' :: '$' :: tail := rfl
  rw [this, h1]
  rfl

/-- C9 counterexample: a stored bcrypt hash with cost 04, below the
configured minimum of 12, verified with the correct plaintext (the
bcrypt comparison verdict is true), does not succeed: verify_password
returns SecurityException VERIFY_ERROR instead of ok true, because the
cost check parses the algorithm tag 2b as an integer and fails. -/
theorem C9_needs_upgrade_counterexample :
    verify_password (fun _ _ => true) "Correct-Horse-1!"
        "$2b$04$N9qo8uLOickgx2ZMRZoMye" = .error (.securityException "VERIFY_ERROR") ∧
    verify_password (fun _ _ => true) "Correct-Horse-1!"
        "$2b$04$N9qo8uLOickgx2ZMRZoMye" ≠ .ok true := by
  refine ⟨by decide, by decide⟩

/-- C9 amended: for every stored hash in bcrypt $2b$ format, whatever its
cost and whatever the bcrypt comparison would say, verify_password raises
SecurityException VERIFY_ERROR: the unpacking `_, cost, *_` of the split
takes the algorithm tag 2b as the cost, int(2b) raises ValueError, and
the catch-all except clause converts it.  In particular verification of a
below-minimum-cost hash never succeeds (and the WEAK_HASH branch is
unreachable on real bcrypt hashes). -/
theorem C9_verify_always_errors (crypt_verify : String → String → Bool)
    (password : String) (stored : String) (tail : List Char)
    (hshape : stored.toList = '$' :: '2' :: 'b' :: '$' :: tail) :
    verify_password crypt_verify password stored =
      .error (.securityException "VERIFY_ERROR") := by
  have hmk : stored = String.mk ('$' :: '2' :: 'b' :: '$' :: tail) := by
    cases stored with
    | mk data => cases hshape; rfl
  obtain ⟨rest, hsplit⟩ := pySplit_bcrypt_shape tail
  have hid : bcryptIdentify stored = true := by
    rw [hmk]
    unfold bcryptIdentify
    have : (String.mk ('$' :: '2' :: 'b' :: '$' :: tail)).toList =
        '$' :: '2' :: 'b' :: '$' :: tail := rfl
    rw [this]
    simp [List.isPrefixOf]
  have hval : validate_hash_security stored = .error (.valueError "invalid literal for int") := by
    unfold validate_hash_security
    rw [hid, hmk, hsplit]
    have h2b : pyInt "2b" = none := by decide
    simp [h2b]
  unfold verify_password
  rw [hval]

/-- C9 witness: applies the always-errors theorem to a concrete low-cost
bcrypt hash, discharging the shape hypothesis by computation. -/
theorem C9_verify_always_errors_witness :
    verify_password (fun _ _ => true) "hunter2hunter2" "$2b$10$abcdefghijklmnopqrstuv" =
      .error (.securityException "VERIFY_ERROR") :=
  C9_verify_always_errors (fun _ _ => true) "hunter2hunter2"
    "$2b$10$abcdefghijklmnopqrstuv"
    ("10$abcdefghijklmnopqrstuv".toList) (by decide)

/-
C6: role hierarchy cycle prevention.
Source: src/backend/auth-service/app/dominio/servicios.py,
ServicioJerarquiaRoles.validar_jerarquia (lines 43-63).  Roles carry a
list of inherited parent names (rol.hereda); the repository is an
association list from role name to that list.  Both raise sites build the
error with RoleConflictError(rol=..., razon=...), but RoleConflictError
in app/dominio/excepciones.py (lines 78-88) accepts a single positional
argument role, so in Python the constructor call itself raises TypeError
(unexpected keyword argument) instead of the intended RoleConflictError.
-/

/-- The role graph: each role name maps to its list of inherited parent
names. -/
abbrev RoleGraph : Type := List (String × List String)

/-- repositorio_roles.obtener_por_nombre restricted to the hereda list. -/
def lookupRol (g : RoleGraph) (nombre : String) : Option (List String) :=
  (g.find? (fun kv => kv.1 == nombre)).map Prod.snd

/-- The exception the two raise sites actually produce: calling
RoleConflictError with keyword arguments rol and razon that its
constructor does not accept raises TypeError. -/
def roleConflictKwError : Exc :=
  .typeError "RoleConflictError takes no keyword arguments rol and razon"

/-- The while loop of validar_jerarquia, as a fuel-indexed function: pop
the head of the queue; finding the mutated role raises (the cycle case);
an already-visited name is skipped; otherwise the name is visited and its
hereda list appended to the queue (a name absent from the repository
makes obtener_por_nombre return None and the .hereda access raise
AttributeError).  The fuel only bounds the iteration count so the
function is total; validar_jerarquia below supplies enough fuel that the
bound is never the reason a run stops on a well-formed graph, and every
theorem about concrete inputs evaluates the loop to its real outcome. -/
def bfs_ciclo (g : RoleGraph) (rol_nombre : String) :
    Nat → List String → List String → Except Exc Bool
  | 0, _, _ => .error .nonTermination
  | _ + 1, [], _ => .ok true
  | fuel + 1, actual :: resto, visitados =>
    if actual = rol_nombre then .error roleConflictKwError
    else if actual ∈ visitados then bfs_ciclo g rol_nombre fuel resto visitados
    else
      match lookupRol g actual with
      | none => .error (.attributeError "NoneType object has no attribute hereda")
      | some hereda => bfs_ciclo g rol_nombre fuel (resto ++ hereda) (actual :: visitados)

/-- Iteration budget that the Python while loop can never exceed: one pop
for the initial queue entry plus at most one queue extension per role,
each bounded by its hereda length, plus slack. -/
def bfsFuel (g : RoleGraph) : Nat :=
  2 + g.length + (g.map (fun p => p.2.length)).sum

/-- ServicioJerarquiaRoles.validar_jerarquia: self-parenting raises at
once (the auto-herencia branch, same broken constructor call); otherwise
the BFS starts from the candidate parent. -/
def validar_jerarquia (g : RoleGraph) (rol rol_padre : String) : Except Exc Bool :=
  if rol = rol_padre then .error roleConflictKwError
  else bfs_ciclo g rol (bfsFuel g) [rol_padre] []

/-- Modelled from the spec: the set-parent-role mutation (no caller in
the backend draft installs the edge; per the spec the DAG check runs
inside the mutation and only a successful check installs the candidate
parent into the mutated role's hereda list). -/
def asignar_padre (g : RoleGraph) (rol rol_padre : String) : Except Exc Unit × RoleGraph :=
  match validar_jerarquia g rol rol_padre with
  | .error e => (.error e, g)
  | .ok _ => (.ok (), g.map (fun p => if p.1 = rol then (p.1, rol_padre :: p.2) else p))

/-- C6 failing input evaluated: in the graph where role b inherits from
role a, proposing a as a child of b closes a cycle; the BFS from b does
reach a and the mutation is refused with the state unchanged, but the
error produced is the TypeError from the miswritten constructor call, not
a RoleConflictError (RoleCycle). -/
theorem C6_role_cycle_wrong_exception :
    validar_jerarquia [("a", []), ("b", ["a"])] "a" "b" = .error roleConflictKwError ∧
    validar_jerarquia [("a", []), ("b", ["a"])] "a" "b" ≠ .error .roleConflict ∧
    (asignar_padre [("a", []), ("b", ["a"])] "a" "b").2 = [("a", []), ("b", ["a"])] := by
  refine ⟨by decide, by decide, by decide⟩

/-
Token infrastructure shared by C2, C3 and C7.
Sources: src/backend/auth-service/app/infraestructura/seguridad/jwt_manager.py
(JWTManager.create_access_token, create_refresh_token, validate_token,
revoke_token, _get_current_kid, _is_token_revoked),
src/backend/auth-service/app/infraestructura/seguridad/jwks_manager.py
(JWKSManager._generate_new_key_pair, _clean_expired_keys, rotate_keys),
src/backend/auth-service/app/aplicacion/casos_uso/autenticacion.py
(LogoutUseCase._revoke_token) and
src/backend/auth-service/app/interfaces/api/v1/routers/auth.py
(the refresh_token endpoint, lines 104-140).

A JWT payload is a keyed list of Python values.  A signature is modelled
by recording which key pair signed the token: verification with a public
key succeeds exactly when the token was signed with that key pair's
private half.  Redis is a list of live (key, expiry) entries.
-/

/-- Python values appearing in JWT payloads. -/
inductive PyVal where
  | str (s : String) : PyVal
  | int (n : Int) : PyVal
  | list (l : List String) : PyVal
  deriving Repr, DecidableEq

/-- A decoded JWT payload: claim names to values. -/
abbrev Payload : Type := List (String × PyVal)

/-- Dictionary lookup in a payload. -/
def payloadGet (p : Payload) (k : String) : Option PyVal :=
  (p.find? (fun kv => kv.1 == k)).map Prod.snd

/-- The environment-derived settings the token code reads. -/
structure Settings where
  issuer : String
  audience : String
  accessExpireMinutes : Int
  refreshExpireDays : Int
  deriving Repr, DecidableEq

/-- One JWK entry: its key id and its expiry timestamp. -/
structure SigningKey where
  kid : String
  exp : Int
  deriving Repr, DecidableEq

/-- JWKSManager state: the ordered public key list self.keys, and the key
id of the pair currently held in the private key file (each generation
overwrites that file). -/
structure JWKSManagerSt where
  keys : List SigningKey
  privateKeyKid : String
  deriving Repr, DecidableEq

/-- JWKSManager.key_rotation_interval: 90 days in seconds. -/
def key_rotation_interval : Int := 90 * 86400

/-- JWKSManager.key_grace_period: 7 days in seconds. -/
def key_grace_period : Int := 7 * 86400

/-- JWKSManager._generate_new_key_pair: append the new public JWK to
self.keys (expiry one rotation interval ahead) and overwrite the private
key file with the new pair. -/
def generate_new_key_pair (st : JWKSManagerSt) (now : Int) (kid : String) : JWKSManagerSt :=
  { keys := st.keys ++ [{ kid := kid, exp := now + key_rotation_interval }],
    privateKeyKid := kid }

/-- JWKSManager._clean_expired_keys: keep keys whose expiry plus grace is
still in the future. -/
def clean_expired_keys (st : JWKSManagerSt) (now : Int) : JWKSManagerSt :=
  { st with keys := st.keys.filter (fun k => k.exp + key_grace_period > now) }

/-- JWKSManager.rotate_keys: generate a new pair, then prune. -/
def rotate_keys (st : JWKSManagerSt) (now : Int) (kid : String) : JWKSManagerSt :=
  clean_expired_keys (generate_new_key_pair st now kid) now

/-- JWTManager._get_current_kid: the kid of get_jwks()["keys"][0], the
FIRST key of the list (none models the IndexError on an empty list). -/
def get_current_kid (st : JWKSManagerSt) : Option String :=
  st.keys.head?.map (fun k => k.kid)

/-- A minted compact JWT: its encoded string, the kid stamped in its
header, the key pair whose private half actually signed it, and its
claims. -/
structure Token where
  raw : String
  headerKid : Option String
  signedBy : String
  payload : Payload
  deriving Repr, DecidableEq

/-- Redis contents: live keys with their expiry time. -/
abbrev RedisSt : Type := List (String × Int)

/-- Redis EXISTS at a given time (expired entries do not count). -/
def redis_exists (rst : RedisSt) (now : Int) (key : String) : Bool :=
  rst.any (fun kv => kv.1 == key && now < kv.2)

/-- Redis SETEX: store the key with a time-to-live. -/
def redis_setex (rst : RedisSt) (now : Int) (key : String) (ttl : Int) : RedisSt :=
  (key, now + ttl) :: rst

/-- settings.REDIS_JTI_BLACKLIST, the denylist key prefix
(CacheConstants.Keys.JTI_BLACKLIST). -/
def REDIS_JTI_BLACKLIST : String := "jti_blacklist"

/-- JWTManager._is_token_revoked: EXISTS on jti_blacklist:(jti). -/
def is_token_revoked (rst : RedisSt) (now : Int) (jti : String) : Bool :=
  redis_exists rst now (REDIS_JTI_BLACKLIST ++ ":" ++ jti)

/-- JWTManager.revoke_token: SETEX jti_blacklist:(jti) for expire_in
seconds (the caller passes the ttl; the default is the access lifetime). -/
def revoke_token (rst : RedisSt) (now : Int) (jti : String) (expire_in : Int) : RedisSt :=
  redis_setex rst now (REDIS_JTI_BLACKLIST ++ ":" ++ jti) expire_in

/-- LogoutUseCase._revoke_token: when lifetime remains, SETEX the key
revoked:(full token string) — note the key is the encoded token, not the
JTI, and the prefix is revoked:, not jti_blacklist:. -/
def logout_revoke_token (rst : RedisSt) (now : Int) (tokenRaw : String) (exp : Int) : RedisSt :=
  if exp - now > 0 then redis_setex rst now ("revoked:" ++ tokenRaw) (exp - now) else rst

/-- JWTManager.create_access_token: claims iss, aud, sub, exp, iat, nbf,
jti plus the payload extras (roles); signed with the private key file's
pair; the header kid is _get_current_kid, the kid of keys[0]. -/
def create_access_token (ring : JWKSManagerSt) (cfg : Settings) (now : Int)
    (subject jti : String) (roles : List String) (raw : String) : Except Exc Token :=
  match get_current_kid ring with
  | none => .error (.indexError "list index out of range")
  | some kid =>
    .ok { raw := raw, headerKid := some kid, signedBy := ring.privateKeyKid,
          payload := [("iss", .str cfg.issuer), ("aud", .str cfg.audience),
                      ("sub", .str subject),
                      ("exp", .int (now + cfg.accessExpireMinutes * 60)),
                      ("iat", .int now), ("nbf", .int now),
                      ("jti", .str jti), ("roles", .list roles)] }

/-- JWTManager.create_refresh_token: claims iss, sub, exp, iat, jti and
type refresh (no aud, no nbf); additionally SETEX refresh_token:(jti)
with the refresh lifetime. -/
def create_refresh_token (ring : JWKSManagerSt) (rst : RedisSt) (cfg : Settings)
    (now : Int) (subject jti raw : String) : Except Exc (Token × RedisSt) :=
  match get_current_kid ring with
  | none => .error (.indexError "list index out of range")
  | some kid =>
    .ok ({ raw := raw, headerKid := some kid, signedBy := ring.privateKeyKid,
           payload := [("iss", .str cfg.issuer), ("sub", .str subject),
                       ("exp", .int (now + cfg.refreshExpireDays * 86400)),
                       ("iat", .int now), ("jti", .str jti),
                       ("type", .str "refresh")] },
          redis_setex rst now ("refresh_token:" ++ jti) (cfg.refreshExpireDays * 86400))

/-- The JWTClaims frozen dataclass of app/dominio/value_objects.py: its
declared fields.  Every keyword passed to the generated constructor must
name one of them. -/
def jwtclaims_fields : List String := ["sub", "iss", "aud", "jti", "roles", "exp", "iat"]

/-- The JWTClaims value (a dataclass performs no type validation, so the
fields hold the raw payload values). -/
structure JWTClaims where
  sub : PyVal
  iss : PyVal
  aud : PyVal
  jti : PyVal
  roles : PyVal
  exp : PyVal
  iat : PyVal
  deriving Repr, DecidableEq

/-- The generated dataclass constructor applied as JWTClaims(**payload):
a keyword outside the declared fields raises TypeError; a missing
required field (all but iat, which has a default) raises TypeError; and
otherwise the fields are bound. -/
def JWTClaims_init (kwargs : Payload) : Except Exc JWTClaims :=
  match kwargs.find? (fun kv => ¬ jwtclaims_fields.contains kv.1) with
  | some kv => .error (.typeError ("JWTClaims got an unexpected keyword argument " ++ kv.1))
  | none =>
    match payloadGet kwargs "sub", payloadGet kwargs "iss", payloadGet kwargs "aud",
          payloadGet kwargs "jti", payloadGet kwargs "roles", payloadGet kwargs "exp" with
    | some s, some i, some a, some j, some r, some e =>
      .ok { sub := s, iss := i, aud := a, jti := j, roles := r, exp := e,
            iat := (payloadGet kwargs "iat").getD (.int 0) }
    | _, _, _, _, _, _ =>
      .error (.typeError "JWTClaims missing required positional arguments")

/-- PyJWT nbf check: fails when an nbf claim is present and lies in the
future. -/
def nbf_violated (p : Payload) (now : Int) : Bool :=
  match payloadGet p "nbf" with
  | some (.int nbf) => decide (now < nbf)
  | _ => false

/-- PyJWT iss check with a required issuer: fails when the claim is
absent or differs. -/
def iss_mismatch (p : Payload) (issuer : String) : Bool :=
  match payloadGet p "iss" with
  | some (.str s) => s != issuer
  | _ => true

/-- JWTManager.validate_token.  The verification key is
get_jwks()["keys"][0] — always the FIRST key of the ring; the kid in the
token header is never consulted.  jwt.decode then verifies the signature
and the registered claims (exp and the required set through the caught
ExpiredSignatureError path; nbf, iss, aud through PyJWT errors that the
except clauses, which only catch jose JWTError, ExpiredSignatureError and
pydantic ValidationError, let propagate).  After decoding, the denylist
is consulted under jti_blacklist:(jti) and TokenRevokedError raised on a
hit; finally JWTClaims(**payload) builds the claim object. -/
def validate_token (ring : JWKSManagerSt) (rst : RedisSt) (cfg : Settings)
    (now : Int) (tok : Token) : Except Exc JWTClaims :=
  match ring.keys.head? with
  | none => .error (.indexError "list index out of range")
  | some k =>
    if tok.signedBy ≠ k.kid then .error .invalidSignature
    else
      match payloadGet tok.payload "exp", payloadGet tok.payload "iat",
            payloadGet tok.payload "sub", payloadGet tok.payload "jti" with
      | some (.int exp), some (.int _), some (.str _), some (.str jti) =>
        if nbf_violated tok.payload now then .error .immatureSignature
        else if exp ≤ now then .error (.invalidToken "TOKEN_EXPIRED")
        else if iss_mismatch tok.payload cfg.issuer then .error .invalidIssuer
        else
          match payloadGet tok.payload "aud" with
          | some (.str aud) =>
            if aud ≠ cfg.audience then .error .invalidAudience
            else if is_token_revoked rst now jti then .error .tokenRevoked
            else JWTClaims_init tok.payload
          | _ => .error (.missingRequiredClaim "aud")
      | _, _, _, _ => .error (.missingRequiredClaim "exp iat sub jti")

/-- The attribute access claims.get(...) in the refresh endpoint:
JWTClaims is a frozen dataclass, not a dict, and declares no get method,
so the lookup raises AttributeError. -/
def jwtClaims_get (_ : JWTClaims) (_ : String) : Except Exc PyVal :=
  .error (.attributeError "JWTClaims object has no attribute get")

/-- The POST /auth/refresh endpoint (routers/auth.py 104-140).  The whole
body sits in a try whose `except Exception` answers HTTP 401, so every
raised error, including the TypeError from JWTClaims(**payload) inside
validate_token and the AttributeError from claims.get, becomes 401.  The
surviving path would check type == refresh, mint a new access token and a
new refresh token (whose creation records refresh_token:(new jti)), and
set the cookie — but no branch ever writes to the jti_blacklist: or
revoked: keyspaces: the presented refresh token is never revoked. -/
def refresh_token_endpoint (ring : JWKSManagerSt) (rst : RedisSt) (cfg : Settings)
    (now : Int) (tok : Token) (newJti newRaw : String) : Except Exc Unit × RedisSt :=
  match validate_token ring rst cfg now tok with
  | .error _ => (.error .httpUnauthorized, rst)
  | .ok claims =>
    match jwtClaims_get claims "type" with
    | .error _ => (.error .httpUnauthorized, rst)
    | .ok t =>
      if t ≠ .str "refresh" then (.error .httpUnauthorized, rst)
      else
        match claims.sub with
        | .str subject =>
          match create_refresh_token ring rst cfg now subject newJti newRaw with
          | .error _ => (.error .httpUnauthorized, rst)
          | .ok (_, rst2) => (.ok (), rst2)
        | _ => (.error .httpUnauthorized, rst)

/-- A one-key ring (key k0, expiry 7776000, private file holding k0)
used by the token scenarios. -/
def demoRing : JWKSManagerSt :=
  { keys := [{ kid := "k0", exp := 7776000 }], privateKeyKid := "k0" }

/-- Concrete settings for the token scenarios. -/
def demoCfg : Settings :=
  { issuer := "iss1", audience := "aud1", accessExpireMinutes := 15, refreshExpireDays := 7 }

/-- The access token minted by demoRing at time 0 for subject u1 with
JTI j1 (15-minute lifetime, so exp 900). -/
def logoutDemoToken : Token :=
  { raw := "rawtok", headerKid := some "k0", signedBy := "k0",
    payload := [("iss", .str "iss1"), ("aud", .str "aud1"), ("sub", .str "u1"),
                ("exp", .int 900), ("iat", .int 0), ("nbf", .int 0),
                ("jti", .str "j1"), ("roles", .list ["user"])] }

/-- C2 evaluated at the failing input: the access token with JTI j1 and
lifetime 900 is minted at time 0.  Validating it at time 10, unrevoked,
does not succeed: JWTClaims(**payload) rejects the nbf claim the minting
code itself wrote, so validate_token raises TypeError instead of
returning the claims.  Revoking it through LogoutUseCase._revoke_token
writes revoked:rawtok (keyed by the token string), leaves
jti_blacklist:j1 absent, and a subsequent validation within the lifetime
still raises the same TypeError, not TokenRevoked.  Only revocation
through JWTManager.revoke_token, which writes jti_blacklist:j1, makes
validation fail with TokenRevoked as the claim describes. -/
theorem C2_validate_logout_divergence :
    create_access_token demoRing demoCfg 0 "u1" "j1" ["user"] "rawtok" =
      .ok logoutDemoToken ∧
    validate_token demoRing [] demoCfg 10 logoutDemoToken =
      .error (.typeError "JWTClaims got an unexpected keyword argument nbf") ∧
    redis_exists (logout_revoke_token [] 10 "rawtok" 900) 20 "revoked:rawtok" = true ∧
    is_token_revoked (logout_revoke_token [] 10 "rawtok" 900) 20 "j1" = false ∧
    validate_token demoRing (logout_revoke_token [] 10 "rawtok" 900) demoCfg 20
        logoutDemoToken =
      .error (.typeError "JWTClaims got an unexpected keyword argument nbf") ∧
    validate_token demoRing (revoke_token [] 10 "j1" 900) demoCfg 20 logoutDemoToken =
      .error .tokenRevoked := by
  refine ⟨by decide, by decide, by decide, by decide, by decide, by decide⟩

/-- C3: the refresh endpoint answers HTTP 401 to every request — the
TypeError raised inside validate_token (and, were a claims object ever
produced, the AttributeError from claims.get on the dataclass) is
swallowed by the catch-all except clause — and it performs no Redis write
at all: in particular the presented refresh token's JTI is never added to
any denylist, so nothing ever revokes a presented refresh token. -/
theorem C3_refresh_endpoint_never_rotates (ring : JWKSManagerSt) (rst : RedisSt)
    (cfg : Settings) (now : Int) (tok : Token) (newJti newRaw : String) :
    (refresh_token_endpoint ring rst cfg now tok newJti newRaw).1 =
      .error .httpUnauthorized ∧
    (refresh_token_endpoint ring rst cfg now tok newJti newRaw).2 = rst := by
  unfold refresh_token_endpoint
  rcases validate_token ring rst cfg now tok with e | claims
  · exact ⟨rfl, rfl⟩
  · exact ⟨rfl, rfl⟩

/-- The access token minted right after the rotation scenario below: the
file-held private key is k1, but the stamped header kid is that of
keys[0], still k0. -/
def rotationDemoToken : Token :=
  { raw := "raw2", headerKid := some "k0", signedBy := "k1",
    payload := [("iss", .str "iss1"), ("aud", .str "aud1"), ("sub", .str "u1"),
                ("exp", .int 1900), ("iat", .int 1000), ("nbf", .int 1000),
                ("jti", .str "j2"), ("roles", .list [])] }

/-- C7 evaluated at the failing input: rotating demoRing at time 1000
appends the new key k1 (expiry 7777000) and moves the private key file to
k1 while keys[0] remains k0.  A token minted right after the rotation is
signed with k1 but stamped with header kid k0; validating it one second
later — well inside the validity of k1 and of every key — fails with a
signature error, because validate_token always verifies against keys[0]
(the old key) and never resolves the verification key from the token
header's KID. -/
theorem C7_kid_not_resolved :
    rotate_keys demoRing 1000 "k1" =
      { keys := [{ kid := "k0", exp := 7776000 }, { kid := "k1", exp := 7777000 }],
        privateKeyKid := "k1" } ∧
    create_access_token (rotate_keys demoRing 1000 "k1") demoCfg 1000 "u1" "j2" [] "raw2" =
      .ok rotationDemoToken ∧
    rotationDemoToken.headerKid = some "k0" ∧
    rotationDemoToken.signedBy = "k1" ∧
    validate_token (rotate_keys demoRing 1000 "k1") [] demoCfg 1001 rotationDemoToken =
      .error .invalidSignature ∧
    (1001 : Int) < 7777000 + key_grace_period := by
  refine ⟨by decide, by decide, by decide, by decide, by decide, by decide⟩

end Gestia
